import Mathlib

/-!
Verification of the CAS (Central Authentication Service) client in
`src/cas.rs` against its natural-language specification.

The development shallowly embeds the client: URLs become a structure with a
non-query part and an optional query string; the external HTTP transport
becomes a function from the request URL to either a transport error or the
tokenized XML event stream; the streaming XML interpreter of `verify_ticket`
becomes a recursive function over that event list; the Rust panic that
`attributes[0]` can raise on an empty attribute vector is made explicit as a
distinguished `panicked` outcome.
-/

namespace RustCas

/-- Model of `xml::reader::Error`: only its presence matters. -/
abbrev XmlError := String

/-- Model of `hyper::error::Error`: only its presence matters. -/
abbrev HyperError := String

/-- Model of `url::ParseError`: the parse diagnostic carried on failure. -/
abbrev ParseError := String

/-- Model of `xml::name::OwnedName`: a local name, an optional namespace
prefix and an optional namespace URI (`cas:user` has local name `user` and
namespace prefix `cas`). -/
structure OwnedName where
  local_name : String
  pfx : Option String
  nsUri : Option String
deriving DecidableEq

/-- Model of `xml::attribute::OwnedAttribute`: a name and a value. -/
structure Attribute where
  name : OwnedName
  value : String
deriving DecidableEq

/-- The XML parse events `verify_ticket` distinguishes: `StartElement` with
its name and attribute list, `Characters` with the text content, and `other`
for every event kind the `_ => {}` arm ignores (start/end document, end
element, CData, comments, whitespace, processing instructions). -/
inductive XmlEvent where
  | startElement (name : OwnedName) (attributes : List Attribute)
  | characters (s : String)
  | other
deriving DecidableEq

/-- One item of the event iterator: the tokenizer yields
`Result<XmlEvent, xml::reader::Error>`, so an item is either an event or a
tokenizer error. -/
abbrev XEvent := Except XmlError XmlEvent

/-- `XmlMatchStatus` from the source: the two interpreter states. -/
inductive XmlMatchStatus where
  | None
  | ExpectSuccess
deriving DecidableEq

/-- `ServiceResponse` from the source. -/
inductive ServiceResponse where
  | Success (name : String)
  | Failure (reason : String)
deriving DecidableEq

/-- `VerifyError` from the source. -/
inductive VerifyError where
  | Hyper (e : HyperError)
  | Xml (e : XmlError)
  | Url (e : ParseError)
  | UnsupportedUriType
  | NoTicketFound
deriving DecidableEq

/-- The observable outcome of a verification call:
`Ok(ServiceResponse)`, `Err(VerifyError)`, or a Rust panic (the unguarded
`attributes[0]` index in the source can panic). -/
inductive VerifyOutcome where
  | ok (r : ServiceResponse)
  | err (e : VerifyError)
  | panicked
deriving DecidableEq

/-- Model of `url::Url` (version 0.2): the part of the serialization before
any query string, plus the optional query string. -/
structure Url where
  nonQuery : String
  query : Option String
deriving DecidableEq

/-- `Url::serialize`: the full URL string. -/
def Url.serialize (u : Url) : String :=
  u.nonQuery ++ (match u.query with
    | Option.none => ""
    | Option.some q => "?" ++ q)

/-- UTF-8 bytes of a character, as naturals below 256. -/
def utf8Bytes (c : Char) : List Nat :=
  let n := c.toNat
  if n < 0x80 then [n]
  else if n < 0x800 then [0xC0 + n / 0x40, 0x80 + n % 0x40]
  else if n < 0x10000 then
    [0xE0 + n / 0x1000, 0x80 + (n / 0x40) % 0x40, 0x80 + n % 0x40]
  else
    [0xF0 + n / 0x40000, 0x80 + (n / 0x1000) % 0x40,
     0x80 + (n / 0x40) % 0x40, 0x80 + n % 0x40]

/-- Upper-case hexadecimal digit for a natural below 16. -/
def hexDigit (n : Nat) : Char :=
  if n < 10 then Char.ofNat (48 + n) else Char.ofNat (55 + n)

/-- Percent-encoding of one byte in `application/x-www-form-urlencoded`
style, as produced by `url::form_urlencoded`: alphanumerics and `*-._`
unchanged, space becomes `+`, every other byte becomes `%XX`. -/
def encodeByte (b : Nat) : List Char :=
  if (48 ≤ b ∧ b ≤ 57) ∨ (65 ≤ b ∧ b ≤ 90) ∨ (97 ≤ b ∧ b ≤ 122)
      ∨ b = 42 ∨ b = 45 ∨ b = 46 ∨ b = 95 then [Char.ofNat b]
  else if b = 32 then ['+']
  else ['%', hexDigit (b / 16), hexDigit (b % 16)]

/-- Percent-encoding of a whole string (over its UTF-8 bytes). -/
def urlencode (s : String) : String :=
  String.mk (List.flatten (s.data.map (fun c => List.flatten ((utf8Bytes c).map encodeByte))))

/-- Model of `url::form_urlencoded` serialization of a pair list, used by
`Url::set_query_from_pairs`: `k=v` components joined by `&`, keys and values
percent-encoded. -/
def serializePairs : List (String × String) → String
  | [] => ""
  | [kv] => urlencode kv.1 ++ "=" ++ urlencode kv.2
  | kv :: rest => urlencode kv.1 ++ "=" ++ urlencode kv.2 ++ "&" ++ serializePairs rest

/-- `Url::set_query_from_pairs`: replaces the query string of the URL with
the serialized pair list. -/
def Url.set_query_from_pairs (u : Url) (pairs : List (String × String)) : Url :=
  { u with query := Option.some (serializePairs pairs) }

/-- `CasClient` from the source: the four configured URLs. -/
structure CasClient where
  login_url : Url
  logout_url : Url
  verify_url : Url
  service_url : Url
deriving DecidableEq

/-- `CasClient::new`, parameterized by the external `Url::parse` of the
`url` crate: each of the four strings is parsed in source order
(login, logout, verify, service) and the first failure aborts with its
diagnostic, exactly as the four `try!` calls do. -/
def CasClient.new (parse : String → Except ParseError Url)
    (base_url login_path logout_path verify_path service_url : String) :
    Except ParseError CasClient := do
  let l ← parse (base_url ++ login_path)
  let lo ← parse (base_url ++ logout_path)
  let v ← parse (base_url ++ verify_path)
  let s ← parse service_url
  Except.ok { login_url := l, logout_url := lo, verify_url := v, service_url := s }

/-- `CasClient::get_login_url`: clone the login URL, set its query to the
single pair `("service", service_url.serialize())`, serialize. -/
def CasClient.get_login_url (c : CasClient) : String :=
  (c.login_url.set_query_from_pairs [("service", c.service_url.serialize)]).serialize

/-- `CasClient::get_logout_url`: serialize the logout URL unchanged. -/
def CasClient.get_logout_url (c : CasClient) : String :=
  c.logout_url.serialize

/-- The validation URL `verify_ticket` builds in its first four statements:
the verify URL with its query set to the pairs
`("service", service_url.serialize())` and `("ticket", ticket)`. -/
def CasClient.validationUrl (c : CasClient) (ticket : String) : String :=
  (c.verify_url.set_query_from_pairs
    [("service", c.service_url.serialize), ("ticket", ticket)]).serialize

/-- The sentinel reason returned when the stream is exhausted. -/
def noAuthReply : String := "did not detect authentication reply from CAS server"

/-- The `for e in parser` loop of `verify_ticket`, as a recursion over the
remaining event items with the current `XmlMatchStatus`:
* an error item is propagated by `try!` as `Err(VerifyError::Xml)`;
* a start element named `authenticationSuccess` (by local name) moves the
  status to `ExpectSuccess`;
* otherwise a start element named `authenticationFailure` returns
  `Ok(Failure(attributes[0].value))`; with an empty attribute list the
  index `attributes[0]` is out of bounds and the call panics;
* a characters event in status `ExpectSuccess` returns `Ok(Success(text))`,
  and is ignored in status `None`;
* every other event is ignored;
* an exhausted stream yields `Ok(Failure(noAuthReply))`. -/
def interpGo (st : XmlMatchStatus) : List XEvent → VerifyOutcome
  | [] => VerifyOutcome.ok (ServiceResponse.Failure noAuthReply)
  | ev :: rest =>
    match ev with
    | Except.error e => VerifyOutcome.err (VerifyError.Xml e)
    | Except.ok (XmlEvent.startElement n attrs) =>
      if n.local_name = "authenticationSuccess" then
        interpGo XmlMatchStatus.ExpectSuccess rest
      else if n.local_name = "authenticationFailure" then
        match attrs with
        | [] => VerifyOutcome.panicked
        | a :: _ => VerifyOutcome.ok (ServiceResponse.Failure a.value)
      else interpGo st rest
    | Except.ok (XmlEvent.characters s) =>
      match st with
      | XmlMatchStatus.None => interpGo XmlMatchStatus.None rest
      | XmlMatchStatus.ExpectSuccess => VerifyOutcome.ok (ServiceResponse.Success s)
    | Except.ok XmlEvent.other => interpGo st rest

/-- The model of the external HTTP transport: `Client::new().get(url).send()`
followed by tokenization is a function from the request URL to either a
hyper error or the event stream of the response body. -/
abbrev Transport := String → Except HyperError (List XEvent)

/-- Interpretation of a transport result: a hyper error is propagated by
`try!`, otherwise the event stream is scanned from status `None`. -/
def interpResponse (resp : Except HyperError (List XEvent)) : VerifyOutcome :=
  match resp with
  | Except.error e => VerifyOutcome.err (VerifyError.Hyper e)
  | Except.ok events => interpGo XmlMatchStatus.None events

/-- `CasClient::verify_ticket`: build the validation URL, hand it to the
transport, interpret the response. -/
def CasClient.verify_ticket (c : CasClient) (ticket : String)
    (transport : Transport) : VerifyOutcome :=
  interpResponse (transport (c.validationUrl ticket))

/-- Model of `hyper::uri::RequestUri` as `verify_from_request` observes it:
for the two supported shapes only the parsed query-pair list matters
(`Url::query_pairs()` returns `None` when the URL has no query string), and
every other shape is collapsed into `other`. -/
inductive RequestUri where
  | absolutePath (queryPairs : Option (List (String × String)))
  | absoluteUri (queryPairs : Option (List (String × String)))
  | other
deriving DecidableEq

/-- The ticket-extraction loop of `verify_from_request`: start from `""` and
overwrite with the value of every pair whose key is literally `ticket`, so
the last occurrence wins. -/
def winningTicket (pairs : List (String × String)) : String :=
  pairs.foldl (fun acc kv => if kv.1 = "ticket" then kv.2 else acc) ""

/-- `CasClient::verify_from_request`: unsupported URI shapes fail with
`UnsupportedUriType`; an absent query (`query_pairs()` returning `None`)
fails with `NoTicketFound`; otherwise the winning ticket is extracted and,
when empty, the call fails with `NoTicketFound`, else `verify_ticket` is
called on it and its result returned directly. -/
def CasClient.verify_from_request (c : CasClient) (uri : RequestUri)
    (transport : Transport) : VerifyOutcome :=
  match uri with
  | RequestUri.other => VerifyOutcome.err VerifyError.UnsupportedUriType
  | RequestUri.absolutePath qp? =>
    match qp? with
    | Option.none => VerifyOutcome.err VerifyError.NoTicketFound
    | Option.some qs =>
      let ticket := winningTicket qs
      if ticket = "" then VerifyOutcome.err VerifyError.NoTicketFound
      else c.verify_ticket ticket transport
  | RequestUri.absoluteUri qp? =>
    match qp? with
    | Option.none => VerifyOutcome.err VerifyError.NoTicketFound
    | Option.some qs =>
      let ticket := winningTicket qs
      if ticket = "" then VerifyOutcome.err VerifyError.NoTicketFound
      else c.verify_ticket ticket transport

/-- Event stream of the tokenized response body
`<cas:serviceResponse><cas:authenticationSuccess><cas:user>alice</cas:user></cas:authenticationSuccess></cas:serviceResponse>`:
start document, the three start elements, the text `alice`, the three end
elements and the end document (the non-start non-text events are `other`). -/
def aliceEvents : List XEvent :=
  [Except.ok XmlEvent.other,
   Except.ok (XmlEvent.startElement ⟨"serviceResponse", Option.some "cas", Option.some "http://www.yale.edu/tp/cas"⟩ []),
   Except.ok (XmlEvent.startElement ⟨"authenticationSuccess", Option.some "cas", Option.some "http://www.yale.edu/tp/cas"⟩ []),
   Except.ok (XmlEvent.startElement ⟨"user", Option.some "cas", Option.some "http://www.yale.edu/tp/cas"⟩ []),
   Except.ok (XmlEvent.characters "alice"),
   Except.ok XmlEvent.other,
   Except.ok XmlEvent.other,
   Except.ok XmlEvent.other,
   Except.ok XmlEvent.other]

/-- Event stream of the tokenized response body
`<cas:serviceResponse><cas:authenticationFailure code="INVALID_TICKET">Ticket not recognized</cas:authenticationFailure></cas:serviceResponse>`. -/
def invalidTicketEvents : List XEvent :=
  [Except.ok XmlEvent.other,
   Except.ok (XmlEvent.startElement ⟨"serviceResponse", Option.some "cas", Option.some "http://www.yale.edu/tp/cas"⟩ []),
   Except.ok (XmlEvent.startElement ⟨"authenticationFailure", Option.some "cas", Option.some "http://www.yale.edu/tp/cas"⟩
     [⟨⟨"code", Option.none, Option.none⟩, "INVALID_TICKET"⟩]),
   Except.ok (XmlEvent.characters "Ticket not recognized"),
   Except.ok XmlEvent.other,
   Except.ok XmlEvent.other,
   Except.ok XmlEvent.other]

/-- Event stream for an `authenticationFailure` element without attributes. -/
def noAttrFailEvents : List XEvent :=
  [Except.ok XmlEvent.other,
   Except.ok (XmlEvent.startElement ⟨"serviceResponse", Option.some "cas", Option.some "http://www.yale.edu/tp/cas"⟩ []),
   Except.ok (XmlEvent.startElement ⟨"authenticationFailure", Option.some "cas", Option.some "http://www.yale.edu/tp/cas"⟩ []),
   Except.ok XmlEvent.other,
   Except.ok XmlEvent.other]

/-- A concrete configured client, used for closed instances. -/
def cEx : CasClient :=
  { login_url := { nonQuery := "https://login.example.edu/cas/login", query := Option.none }
    logout_url := { nonQuery := "https://login.example.edu/cas/logout", query := Option.none }
    verify_url := { nonQuery := "https://login.example.edu/cas/serviceValidate", query := Option.none }
    service_url := { nonQuery := "https://service.example.edu/callback", query := Option.none } }

example : interpGo XmlMatchStatus.None aliceEvents
    = VerifyOutcome.ok (ServiceResponse.Success "alice") := by decide

example : interpGo XmlMatchStatus.None invalidTicketEvents
    = VerifyOutcome.ok (ServiceResponse.Failure "INVALID_TICKET") := by decide

example : interpGo XmlMatchStatus.None noAttrFailEvents = VerifyOutcome.panicked := by decide

example : urlencode "https://x.io/a b" = "https%3A%2F%2Fx.io%2Fa+b" := by decide

/-- An event item is benign when scanning it neither terminates the loop nor
can change the outcome: a start element not named `authenticationFailure`,
or an ignored event kind. Error items, characters items and
`authenticationFailure` start elements are not benign. -/
def benignEv : XEvent → Bool
  | Except.ok (XmlEvent.startElement n _) => n.local_name ≠ "authenticationFailure"
  | Except.ok XmlEvent.other => true
  | _ => false

/-- The item is a tokenizer error. -/
def isErrEv : XEvent → Bool
  | Except.error _ => true
  | _ => false

/-- The item is a start element with local name `authenticationFailure`. -/
def isFailStartEv : XEvent → Bool
  | Except.ok (XmlEvent.startElement n _) => n.local_name = "authenticationFailure"
  | _ => false

/-- The item is a start element with local name `authenticationSuccess`. -/
def isSuccStartEv : XEvent → Bool
  | Except.ok (XmlEvent.startElement n _) => n.local_name = "authenticationSuccess"
  | _ => false

/-- The item is a text-content event. -/
def isCharsEv : XEvent → Bool
  | Except.ok (XmlEvent.characters _) => true
  | _ => false

/-- From state `ExpectSuccess`, benign items are scanned over and the first
characters item returns its text as `Success`. -/
theorem interpGo_expectSuccess_first_text (mid : List XEvent) (s : String)
    (rest : List XEvent) (hmid : ∀ ev ∈ mid, benignEv ev = true) :
    interpGo XmlMatchStatus.ExpectSuccess
        (mid ++ Except.ok (XmlEvent.characters s) :: rest)
      = VerifyOutcome.ok (ServiceResponse.Success s) := by
  induction mid with
  | nil => simp [interpGo]
  | cons ev mid ih =>
    have hev := hmid ev (by simp)
    have hmid' : ∀ ev ∈ mid, benignEv ev = true := fun e he => hmid e (by simp [he])
    cases ev with
    | error e => simp [benignEv] at hev
    | ok x =>
      cases x with
      | startElement n attrs =>
        have hnf : n.local_name ≠ "authenticationFailure" := by
          simpa [benignEv] using hev
        by_cases hns : n.local_name = "authenticationSuccess"
        · simpa [interpGo, hns] using ih hmid'
        · simpa [interpGo, hns, hnf] using ih hmid'
      | characters t => simp [benignEv] at hev
      | other => simpa [interpGo] using ih hmid'

/-- C1: once a start element with local name `authenticationSuccess` has been
seen, in any state, the first text-content event that the scan reaches (only
benign items in between) immediately returns `Success` with exactly that
text, not waiting for any closing tag; and on the stream of
`<cas:serviceResponse><cas:authenticationSuccess><cas:user>alice</cas:user></cas:authenticationSuccess></cas:serviceResponse>`
`verify_ticket` returns `Success("alice")`. -/
theorem verify_ticket_success_first_text :
    (∀ (st : XmlMatchStatus) (n : OwnedName) (attrs : List Attribute)
       (mid : List XEvent) (s : String) (rest : List XEvent),
       n.local_name = "authenticationSuccess" →
       (∀ ev ∈ mid, benignEv ev = true) →
       interpGo st (Except.ok (XmlEvent.startElement n attrs)
           :: (mid ++ Except.ok (XmlEvent.characters s) :: rest))
         = VerifyOutcome.ok (ServiceResponse.Success s))
    ∧ (∀ (c : CasClient) (t : String),
       c.verify_ticket t (fun _ => Except.ok aliceEvents)
         = VerifyOutcome.ok (ServiceResponse.Success "alice")) := by
  constructor
  · intro st n attrs mid s rest hn hmid
    simpa [interpGo, hn] using interpGo_expectSuccess_first_text mid s rest hmid
  · intro c t
    rfl

/-- Closed instance of the C1 theorem on a concrete stream. -/
theorem verify_ticket_success_first_text_witness :
    interpGo XmlMatchStatus.None
        (Except.ok (XmlEvent.startElement ⟨"authenticationSuccess", Option.some "cas", Option.none⟩ [])
          :: ([Except.ok (XmlEvent.startElement ⟨"user", Option.some "cas", Option.none⟩ [])]
              ++ Except.ok (XmlEvent.characters "alice") :: [Except.ok XmlEvent.other]))
      = VerifyOutcome.ok (ServiceResponse.Success "alice") :=
  verify_ticket_success_first_text.1 XmlMatchStatus.None
    ⟨"authenticationSuccess", Option.some "cas", Option.none⟩ []
    [Except.ok (XmlEvent.startElement ⟨"user", Option.some "cas", Option.none⟩ [])]
    "alice" [Except.ok XmlEvent.other] rfl (by decide)

/-- C2: in any interpreter state, a start element with local name
`authenticationFailure` that carries at least one attribute immediately
returns `Failure` with the first attribute's value, whatever events follow;
and on the stream of
`<cas:serviceResponse><cas:authenticationFailure code="INVALID_TICKET">Ticket not recognized</cas:authenticationFailure></cas:serviceResponse>`
`verify_ticket` returns `Failure("INVALID_TICKET")` — the attribute value,
not the element text. -/
theorem verify_ticket_failure_first_attribute :
    (∀ (st : XmlMatchStatus) (p u : Option String) (a : Attribute)
       (tl : List Attribute) (rest : List XEvent),
       interpGo st (Except.ok (XmlEvent.startElement ⟨"authenticationFailure", p, u⟩ (a :: tl)) :: rest)
         = VerifyOutcome.ok (ServiceResponse.Failure a.value))
    ∧ (∀ (c : CasClient) (t : String),
       c.verify_ticket t (fun _ => Except.ok invalidTicketEvents)
         = VerifyOutcome.ok (ServiceResponse.Failure "INVALID_TICKET")) := by
  constructor
  · intro st p u a tl rest
    simp [interpGo]
  · intro c t
    rfl

/-- C3: on a stream whose `authenticationFailure` start element carries no
attributes, the scan evaluates `attributes[0]` on an empty vector and the
call panics instead of returning a parse error or an empty-reason
`Failure`. -/
theorem verify_ticket_no_attribute_panics :
    interpGo XmlMatchStatus.None noAttrFailEvents = VerifyOutcome.panicked
    ∧ (∀ (c : CasClient) (t : String),
       c.verify_ticket t (fun _ => Except.ok noAttrFailEvents) = VerifyOutcome.panicked) :=
  ⟨by decide, fun c t => rfl⟩

/-- Erase the namespace data of a name, keeping only the local name. -/
def scrubName (n : OwnedName) : OwnedName :=
  ⟨n.local_name, Option.none, Option.none⟩

/-- Erase the namespace data of an attribute's name. -/
def scrubAttr (a : Attribute) : Attribute :=
  ⟨scrubName a.name, a.value⟩

/-- Erase all namespace prefixes and URIs from an event item. -/
def scrubEvent : XEvent → XEvent
  | Except.ok (XmlEvent.startElement n attrs) =>
    Except.ok (XmlEvent.startElement (scrubName n) (attrs.map scrubAttr))
  | e => e

/-- C10: the interpreter matches element names by local name only: erasing
every namespace prefix and namespace URI from the stream leaves the result
unchanged, and a start element whose local name is `authenticationSuccess`
triggers the transition to `ExpectSuccess` under any prefix and namespace. -/
theorem interpGo_local_name_only :
    (∀ (st : XmlMatchStatus) (events : List XEvent),
       interpGo st (events.map scrubEvent) = interpGo st events)
    ∧ (∀ (st : XmlMatchStatus) (p u : Option String) (attrs : List Attribute)
       (rest : List XEvent),
       interpGo st (Except.ok (XmlEvent.startElement ⟨"authenticationSuccess", p, u⟩ attrs) :: rest)
         = interpGo XmlMatchStatus.ExpectSuccess rest) := by
  constructor
  · intro st events
    induction events generalizing st with
    | nil => rfl
    | cons ev rest ih =>
      cases ev with
      | error e => simp [interpGo, scrubEvent]
      | ok x =>
        cases x with
        | startElement n attrs =>
          by_cases hns : n.local_name = "authenticationSuccess"
          · simp [interpGo, scrubEvent, scrubName, hns, ih]
          · by_cases hnf : n.local_name = "authenticationFailure"
            · cases attrs with
              | nil => simp [interpGo, scrubEvent, scrubName, hns, hnf]
              | cons a tl => simp [interpGo, scrubEvent, scrubName, scrubAttr, hns, hnf]
            · simp [interpGo, scrubEvent, scrubName, hns, hnf, ih]
        | characters s => cases st <;> simp [interpGo, scrubEvent, ih]
        | other => simp [interpGo, scrubEvent, ih]
  · intro st p u attrs rest
    simp [interpGo]

/-- A stream of benign items only is scanned to its end from any state and
yields the sentinel `Failure`. -/
theorem interpGo_benign_exhausts (events : List XEvent) :
    ∀ (st : XmlMatchStatus), (∀ ev ∈ events, benignEv ev = true) →
    interpGo st events = VerifyOutcome.ok (ServiceResponse.Failure noAuthReply) := by
  induction events with
  | nil => intro st h; rfl
  | cons ev rest ih =>
    intro st h
    have hev := h ev (by simp)
    have hrest : ∀ e ∈ rest, benignEv e = true := fun e he => h e (by simp [he])
    cases ev with
    | error e => simp [benignEv] at hev
    | ok x =>
      cases x with
      | startElement n attrs =>
        have hnf : n.local_name ≠ "authenticationFailure" := by
          simpa [benignEv] using hev
        by_cases hns : n.local_name = "authenticationSuccess"
        · simpa [interpGo, hns] using ih XmlMatchStatus.ExpectSuccess hrest
        · simpa [interpGo, hns, hnf] using ih st hrest
      | characters s => simp [benignEv] at hev
      | other => simpa [interpGo] using ih st hrest

/-- C4: a finite stream with no tokenizer error and no
`authenticationFailure` start element, in which no text-content event occurs
after an `authenticationSuccess` start element, is exhausted and yields
`Ok(Failure)` with the fixed sentinel reason — a soft failure, not a
`VerifyError`. -/
theorem interpGo_exhaustion_sentinel :
    ∀ (events : List XEvent),
    (∀ ev ∈ events, isErrEv ev = false ∧ isFailStartEv ev = false) →
    (∀ (l₁ l₂ : List XEvent) (ev : XEvent), events = l₁ ++ ev :: l₂ →
       isSuccStartEv ev = true → ∀ ev₂ ∈ l₂, isCharsEv ev₂ = false) →
    interpGo XmlMatchStatus.None events
      = VerifyOutcome.ok (ServiceResponse.Failure noAuthReply) := by
  intro events
  induction events with
  | nil => intro h1 h2; rfl
  | cons ev rest ih =>
    intro h1 h2
    have hev := h1 ev (by simp)
    have h1rest : ∀ e ∈ rest, isErrEv e = false ∧ isFailStartEv e = false :=
      fun e he => h1 e (by simp [he])
    have h2rest : ∀ (l₁ l₂ : List XEvent) (e : XEvent), rest = l₁ ++ e :: l₂ →
        isSuccStartEv e = true → ∀ ev₂ ∈ l₂, isCharsEv ev₂ = false := by
      intro l₁ l₂ e heq hs
      exact h2 (ev :: l₁) l₂ e (by simp [heq]) hs
    cases ev with
    | error e => simp [isErrEv] at hev
    | ok x =>
      cases x with
      | startElement n attrs =>
        have hnf : n.local_name ≠ "authenticationFailure" := by
          have := hev.2
          simpa [isFailStartEv] using this
        by_cases hns : n.local_name = "authenticationSuccess"
        · have hnochars : ∀ e ∈ rest, isCharsEv e = false :=
            h2 [] rest (Except.ok (XmlEvent.startElement n attrs)) rfl
              (by simp [isSuccStartEv, hns])
          have hbenign : ∀ e ∈ rest, benignEv e = true := by
            intro e he
            have hne := h1rest e he
            have hnc := hnochars e he
            cases e with
            | error x => simp [isErrEv] at hne
            | ok y =>
              cases y with
              | startElement m attrsm =>
                have : m.local_name ≠ "authenticationFailure" := by
                  simpa [isFailStartEv] using hne.2
                simpa [benignEv] using this
              | characters s => simp [isCharsEv] at hnc
              | other => simp [benignEv]
          simpa [interpGo, hns] using
            interpGo_benign_exhausts rest XmlMatchStatus.ExpectSuccess hbenign
        · simpa [interpGo, hns, hnf] using ih h1rest h2rest
      | characters s =>
        simpa [interpGo] using ih h1rest h2rest
      | other =>
        simpa [interpGo] using ih h1rest h2rest

/-- Closed instance of the C4 theorem: a stream holding only a start
document, one start element and an end element exhausts into the sentinel
`Failure`. -/
theorem interpGo_exhaustion_sentinel_witness :
    interpGo XmlMatchStatus.None
        [Except.ok XmlEvent.other,
         Except.ok (XmlEvent.startElement ⟨"serviceResponse", Option.some "cas", Option.none⟩ []),
         Except.ok XmlEvent.other]
      = VerifyOutcome.ok (ServiceResponse.Failure noAuthReply) :=
  interpGo_exhaustion_sentinel _ (by decide) (by
    intro l₁ l₂ ev heq hs
    have hmem : ev ∈ [Except.ok XmlEvent.other,
        Except.ok (XmlEvent.startElement ⟨"serviceResponse", Option.some "cas", Option.none⟩ []),
        Except.ok XmlEvent.other] := by
      rw [heq]; exact List.mem_append_right l₁ (by simp)
    have : isSuccStartEv ev = false := by
      simp only [List.mem_cons, List.not_mem_nil, or_false] at hmem
      rcases hmem with h | h | h <;> (subst h; decide)
    rw [this] at hs
    exact absurd hs (by simp))

/-- Written from the spec's words, for comparison with the extraction loop:
the value of the last pair whose key is literally `ticket`, if any (a later
occurrence takes priority over an earlier one). -/
def lastTicketValue? : List (String × String) → Option String
  | [] => Option.none
  | kv :: rest =>
    match lastTicketValue? rest with
    | Option.some v => Option.some v
    | Option.none => if kv.1 = "ticket" then Option.some kv.2 else Option.none

/-- The overwrite loop started from any accumulator computes the last
`ticket` value, defaulting to the accumulator. -/
theorem foldl_overwrite_eq_last (pairs : List (String × String)) :
    ∀ (acc : String),
    pairs.foldl (fun acc kv => if kv.1 = "ticket" then kv.2 else acc) acc
      = (lastTicketValue? pairs).getD acc := by
  induction pairs with
  | nil => intro acc; rfl
  | cons kv rest ih =>
    intro acc
    simp only [List.foldl_cons, lastTicketValue?]
    rw [ih]
    cases h : lastTicketValue? rest with
    | some v => simp
    | none =>
      by_cases hk : kv.1 = "ticket" <;> simp [hk]

/-- If no pair is named `ticket`, the overwrite loop keeps its
accumulator. -/
theorem foldl_overwrite_no_ticket (pairs : List (String × String)) :
    ∀ (acc : String), (∀ kv ∈ pairs, kv.1 ≠ "ticket") →
    pairs.foldl (fun acc kv => if kv.1 = "ticket" then kv.2 else acc) acc = acc := by
  induction pairs with
  | nil => intro acc h; rfl
  | cons kv rest ih =>
    intro acc h
    have hk : kv.1 ≠ "ticket" := h kv (by simp)
    simp only [List.foldl_cons, if_neg hk]
    exact ih acc (fun e he => h e (by simp [he]))

/-- C5 (amended): the extraction loop keeps the value of the last
occurrence of a parameter literally named `ticket`, regardless of whether
that value is empty; whenever the winning value is non-empty,
`verify_from_request` returns exactly the result of `verify_ticket` applied
to it (for both supported URI shapes), and on
`/callback?ticket=ST-123&foo=bar` it yields the same result as
`verify_ticket("ST-123")`. -/
theorem verify_from_request_last_ticket :
    (∀ (pairs : List (String × String)),
       winningTicket pairs = (lastTicketValue? pairs).getD "")
    ∧ (∀ (c : CasClient) (transport : Transport) (pairs : List (String × String)),
       winningTicket pairs ≠ "" →
       c.verify_from_request (RequestUri.absolutePath (Option.some pairs)) transport
           = c.verify_ticket (winningTicket pairs) transport
         ∧ c.verify_from_request (RequestUri.absoluteUri (Option.some pairs)) transport
           = c.verify_ticket (winningTicket pairs) transport)
    ∧ (∀ (c : CasClient) (transport : Transport),
       c.verify_from_request
           (RequestUri.absolutePath (Option.some [("ticket", "ST-123"), ("foo", "bar")]))
           transport
         = c.verify_ticket "ST-123" transport) := by
  refine ⟨fun pairs => foldl_overwrite_eq_last pairs "", ?_, ?_⟩
  · intro c transport pairs h
    constructor <;> simp [CasClient.verify_from_request, h]
  · intro c transport
    rfl

/-- Closed instance of the C5 theorem at a single-pair query. -/
theorem verify_from_request_last_ticket_witness :
    CasClient.verify_from_request cEx
        (RequestUri.absolutePath (Option.some [("ticket", "ST-9")]))
        (fun _ => Except.ok aliceEvents)
      = CasClient.verify_ticket cEx (winningTicket [("ticket", "ST-9")])
        (fun _ => Except.ok aliceEvents) :=
  (verify_from_request_last_ticket.2.1 cEx (fun _ => Except.ok aliceEvents)
    [("ticket", "ST-9")] (by decide)).1

/-- C5 as frozen is refuted by a query whose last `ticket` occurrence is
empty: the claim picks the last non-empty occurrence `ST-1`, but the code
overwrites with the final empty value and fails with `NoTicketFound`
instead of returning the result of `verify_ticket("ST-1")`. -/
theorem verify_from_request_last_ticket_counterexample :
    CasClient.verify_from_request cEx
        (RequestUri.absolutePath (Option.some [("ticket", "ST-1"), ("ticket", "")]))
        (fun _ => Except.ok aliceEvents)
      ≠ CasClient.verify_ticket cEx "ST-1" (fun _ => Except.ok aliceEvents) := by
  decide

/-- C6: `verify_from_request` fails with `NoTicketFound` when the query is
absent, empty, lacks a `ticket` parameter, or its winning `ticket` value is
empty; and every unsupported URI shape fails with `UnsupportedUriType`
independently of the transport — no validation request is consulted. -/
theorem verify_from_request_errors :
    (∀ (c : CasClient) (transport : Transport),
       c.verify_from_request RequestUri.other transport
         = VerifyOutcome.err VerifyError.UnsupportedUriType)
    ∧ (∀ (c : CasClient) (transport : Transport),
       c.verify_from_request (RequestUri.absolutePath Option.none) transport
           = VerifyOutcome.err VerifyError.NoTicketFound
         ∧ c.verify_from_request (RequestUri.absoluteUri Option.none) transport
           = VerifyOutcome.err VerifyError.NoTicketFound)
    ∧ (∀ (c : CasClient) (transport : Transport),
       c.verify_from_request (RequestUri.absolutePath (Option.some [])) transport
         = VerifyOutcome.err VerifyError.NoTicketFound)
    ∧ (∀ (c : CasClient) (transport : Transport) (pairs : List (String × String)),
       winningTicket pairs = "" →
       c.verify_from_request (RequestUri.absolutePath (Option.some pairs)) transport
           = VerifyOutcome.err VerifyError.NoTicketFound
         ∧ c.verify_from_request (RequestUri.absoluteUri (Option.some pairs)) transport
           = VerifyOutcome.err VerifyError.NoTicketFound)
    ∧ (∀ (pairs : List (String × String)),
       (∀ kv ∈ pairs, kv.1 ≠ "ticket") → winningTicket pairs = "") := by
  refine ⟨fun c transport => rfl, fun c transport => ⟨rfl, rfl⟩,
    fun c transport => rfl, ?_, ?_⟩
  · intro c transport pairs h
    constructor <;> simp [CasClient.verify_from_request, h]
  · intro pairs h
    exact foldl_overwrite_no_ticket pairs "" h

/-- Closed instance of the C6 theorem: a query without a `ticket` parameter
fails with `NoTicketFound`. -/
theorem verify_from_request_errors_witness :
    CasClient.verify_from_request cEx
        (RequestUri.absolutePath (Option.some [("foo", "bar")]))
        (fun _ => Except.ok aliceEvents)
      = VerifyOutcome.err VerifyError.NoTicketFound :=
  (verify_from_request_errors.2.2.2.1 cEx (fun _ => Except.ok aliceEvents)
    [("foo", "bar")] (by decide)).1

/-- The result carries a value (Rust `Result::is_ok`). -/
def exceptIsOk {ε α : Type} : Except ε α → Bool
  | Except.ok _ => true
  | Except.error _ => false

/-- C7: for any behaviour of the external URL parser, construction succeeds
exactly when all four of `base_url+login_path`, `base_url+logout_path`,
`base_url+verify_path` and `service_url` parse; a produced client holds
exactly the four parsed URLs, and on failure the returned error is the parse
diagnostic of one of the four strings — no partial configuration exists. -/
theorem cas_client_new_all_or_nothing :
    ∀ (parse : String → Except ParseError Url)
      (base_url login_path logout_path verify_path service_url : String),
    (exceptIsOk (CasClient.new parse base_url login_path logout_path verify_path service_url) = true
       ↔ exceptIsOk (parse (base_url ++ login_path)) = true
         ∧ exceptIsOk (parse (base_url ++ logout_path)) = true
         ∧ exceptIsOk (parse (base_url ++ verify_path)) = true
         ∧ exceptIsOk (parse service_url) = true)
    ∧ (∀ (c : CasClient),
       CasClient.new parse base_url login_path logout_path verify_path service_url
           = Except.ok c →
       parse (base_url ++ login_path) = Except.ok c.login_url
         ∧ parse (base_url ++ logout_path) = Except.ok c.logout_url
         ∧ parse (base_url ++ verify_path) = Except.ok c.verify_url
         ∧ parse service_url = Except.ok c.service_url)
    ∧ (∀ (e : ParseError),
       CasClient.new parse base_url login_path logout_path verify_path service_url
           = Except.error e →
       parse (base_url ++ login_path) = Except.error e
         ∨ parse (base_url ++ logout_path) = Except.error e
         ∨ parse (base_url ++ verify_path) = Except.error e
         ∨ parse service_url = Except.error e) := by
  intro parse b lp lo vp su
  cases h1 : parse (b ++ lp) <;> cases h2 : parse (b ++ lo) <;>
    cases h3 : parse (b ++ vp) <;> cases h4 : parse su <;>
      simp [CasClient.new, h1, h2, h3, h4, exceptIsOk, Bind.bind, Except.bind]

/-- Closed instance of the C7 theorem, with a parser rejecting exactly the
empty string. -/
theorem cas_client_new_all_or_nothing_witness :
    exceptIsOk (CasClient.new
        (fun s => if s = ""
          then Except.error ("relative URL without a base: " ++ s)
          else Except.ok { nonQuery := s, query := Option.none })
        "https://login.example.edu" "/cas/login" "/cas/logout"
        "/cas/serviceValidate" "https://service.example.edu/callback") = true :=
  ((cas_client_new_all_or_nothing
      (fun s => if s = ""
        then Except.error ("relative URL without a base: " ++ s)
        else Except.ok { nonQuery := s, query := Option.none })
      "https://login.example.edu" "/cas/login" "/cas/logout"
      "/cas/serviceValidate" "https://service.example.edu/callback").1).mpr
    (by decide)

/-- C8: the validation URL `verify_ticket` builds is the configured verify
URL with exactly the two query parameters `service` (the percent-encoded
service URL) and `ticket` (the percent-encoded ticket), in that order; and
the URL handed to the HTTP transport is exactly this one. -/
theorem validationUrl_two_params :
    ∀ (c : CasClient) (t : String),
    CasClient.validationUrl c t
      = c.verify_url.nonQuery ++ "?"
          ++ ("service=" ++ urlencode (Url.serialize c.service_url))
          ++ ("&" ++ ("ticket=" ++ urlencode t))
    ∧ (∀ (transport : Transport),
       c.verify_ticket t transport
         = interpResponse (transport (CasClient.validationUrl c t))) := by
  intro c t
  constructor
  · have k1 : urlencode "service" = "service" := rfl
    have k2 : urlencode "ticket" = "ticket" := rfl
    simp [CasClient.validationUrl, Url.set_query_from_pairs, Url.serialize,
      serializePairs, k1, k2, String.append_assoc]
  · intro transport
    rfl

/-- C9: `get_login_url` is the configured login URL with exactly the one
query parameter `service`, set to the percent-encoded service URL, and
`get_logout_url` is the serialization of the configured logout URL with no
query parameter appended. -/
theorem login_and_logout_urls :
    ∀ (c : CasClient),
    CasClient.get_login_url c
      = c.login_url.nonQuery ++ "?"
          ++ ("service=" ++ urlencode (Url.serialize c.service_url))
    ∧ CasClient.get_logout_url c = Url.serialize c.logout_url
    ∧ CasClient.get_logout_url c
        = c.logout_url.nonQuery ++ (match c.logout_url.query with
            | Option.none => ""
            | Option.some q => "?" ++ q) := by
  intro c
  refine ⟨?_, rfl, rfl⟩
  have k1 : urlencode "service" = "service" := rfl
  simp [CasClient.get_login_url, Url.set_query_from_pairs, Url.serialize,
    serializePairs, k1, String.append_assoc]

end RustCas
